import Mathlib

/-!
Verification development for the hybrid Qwen server (failover orchestrator).

The definitions below are a shallow embedding of:
  * `src/backend/server.py` — class `HybridQwenServer`: `_get_model_config`,
    `_record_performance`, `send_message`, `generate_image`, `get_models`,
    `get_performance_stats`, and `__init__`;
  * `src/qwen_direct/api/enhanced_client.py` — `QwenEnhancedClient.generate_image`,
    `_try_alternative_image_generation`, `_extract_image_url_from_response`.

Python JSON-ish values are embedded as `JVal`; Python dictionary/attribute
operations that can raise are embedded in `Except String` where the error
string plays the role of the raised exception.  HTTP collaborators (the direct
client's chat calls and the browser-automation stubs) are oracles supplied
as arguments, so that the orchestrator's control flow — which is what the
claims are about — is modelled exactly.
-/

/-- Embedding of Python JSON-like values (None, bool, str, int, list, dict).
Number payloads are integers: every numeric literal occurring in the modelled
response bodies is an integer. -/
inductive JVal where
  | jnull : JVal
  | jbool : Bool → JVal
  | jstr : String → JVal
  | jnum : Int → JVal
  | jarr : List JVal → JVal
  | jobj : List (String × JVal) → JVal
deriving Repr

/-- First-match lookup in an association list (Python dicts have unique keys,
so first-match agrees with dict lookup). -/
def jlookupL : List (String × JVal) → String → Option JVal
  | [], _ => none
  | (k, v) :: rest, key => if k = key then some v else jlookupL rest key

/-- `needle` is a leading segment of `hay` (character lists). -/
def charsStartWith : List Char → List Char → Bool
  | [], _ => true
  | _ :: _, [] => false
  | n :: ns, h :: hs => n == h && charsStartWith ns hs

/-- `needle in hay` for character lists: substring occurrence at any offset
(the semantics of Python's `in` on strings). -/
def charsInfix (needle : List Char) : List Char → Bool
  | [] => charsStartWith needle []
  | h :: hs => charsStartWith needle (h :: hs) || charsInfix needle hs

/-- Python truthiness of a JSON value: `None`, `False`, `""`, `0`, `[]` and
an empty dict are falsy, everything else is truthy. -/
def truthy : JVal → Bool
  | .jnull => false
  | .jbool b => b
  | .jstr s => !(s == "")
  | .jnum n => !(n == 0)
  | .jarr xs => !xs.isEmpty
  | .jobj kvs => !kvs.isEmpty

/-- `v.get(key, dflt)` in Python: returns the default when the key is absent,
raises `AttributeError` when `v` is not a dict. -/
def pyDictGet (v : JVal) (key : String) (dflt : JVal) : Except String JVal :=
  match v with
  | .jobj kvs => .ok ((jlookupL kvs key).getD dflt)
  | _ => .error "AttributeError"

/-- `needle in v` in Python: key test for dicts, substring test for strings,
membership for lists; raises `TypeError` otherwise. -/
def pyContains (needle : String) (v : JVal) : Except String Bool :=
  match v with
  | .jobj kvs => .ok (jlookupL kvs needle).isSome
  | .jstr s => .ok (charsInfix needle.data s.data)
  | .jarr xs => .ok (xs.any fun x => match x with | .jstr t => t == needle | _ => false)
  | _ => .error "TypeError"

/-- `v[key]` in Python: raises `KeyError` when the key is absent and
`TypeError` when `v` is not a dict. -/
def pyIndexKey (v : JVal) (key : String) : Except String JVal :=
  match v with
  | .jobj kvs =>
      match jlookupL kvs key with
      | some x => .ok x
      | none => .error "KeyError"
  | _ => .error "TypeError"

/-- `len(v) > 0` in Python; raises `TypeError` on values without a length. -/
def pyLenPos (v : JVal) : Except String Bool :=
  match v with
  | .jarr xs => .ok !xs.isEmpty
  | .jstr s => .ok !(s == "")
  | .jobj kvs => .ok !kvs.isEmpty
  | _ => .error "TypeError"

/-- `v[0]` in Python: head of a list, first character of a string; raises
otherwise (`KeyError` for a dict, `TypeError` for the rest). -/
def pyIndexZero (v : JVal) : Except String JVal :=
  match v with
  | .jarr (x :: _) => .ok x
  | .jarr [] => .error "IndexError"
  | .jstr s =>
      match s.data with
      | c :: _ => .ok (.jstr (String.mk [c]))
      | [] => .error "IndexError"
  | _ => .error "TypeError"

/-- Iterating a Python value in a `for` loop: list elements, characters of a
string (as one-character strings), keys of a dict; raises `TypeError` for the
non-iterable values. -/
def iterElems : JVal → Except String (List JVal)
  | .jarr xs => .ok xs
  | .jstr s => .ok (s.data.map fun c => .jstr (String.mk [c]))
  | .jobj kvs => .ok (kvs.map fun kv => .jstr kv.1)
  | _ => .error "TypeError"

/-! ## Model Capability Table — `HybridQwenServer._get_model_config` -/

/-- Embedding of the per-model configuration dicts returned by
`_get_model_config`.  `supports_images` / `supports_audio` are `Option Bool`
because the Python dicts include those keys only for some categories.
The `feature_config` sub-dict is flattened into the `fc_*` fields plus the
list of extra flags that are set (all extra flags in the source are `True`). -/
structure ModelConfig where
  category : String
  supports_web_search : Bool
  supports_files : Bool
  supports_images : Option Bool
  supports_audio : Option Bool
  optimal_temperature : ℚ
  max_tokens : ℕ
  thinking_enabled : Bool
  output_schema : String
  fc_thinking_enabled : Bool
  fc_output_schema : String
  fc_extra : List String
deriving Repr, DecidableEq

/-- Configuration for names containing `coder` (server.py lines 158-173). -/
def codingConfig : ModelConfig :=
  { category := "coding", supports_web_search := true, supports_files := true,
    supports_images := none, supports_audio := none,
    optimal_temperature := 1/10, max_tokens := 4096, thinking_enabled := true,
    output_schema := "phase", fc_thinking_enabled := true,
    fc_output_schema := "phase", fc_extra := ["code_completion"] }

/-- Configuration for names containing `vl`, `vision` or `qvq` (lines 174-190). -/
def visionConfig : ModelConfig :=
  { category := "vision", supports_web_search := true, supports_files := true,
    supports_images := some true, supports_audio := none,
    optimal_temperature := 3/10, max_tokens := 2048, thinking_enabled := false,
    output_schema := "phase", fc_thinking_enabled := false,
    fc_output_schema := "phase", fc_extra := ["vision_enabled"] }

/-- Configuration for names containing `qwq` (lines 191-206). -/
def reasoningConfig : ModelConfig :=
  { category := "reasoning", supports_web_search := true, supports_files := true,
    supports_images := none, supports_audio := none,
    optimal_temperature := 1/5, max_tokens := 8192, thinking_enabled := true,
    output_schema := "thinking", fc_thinking_enabled := true,
    fc_output_schema := "thinking", fc_extra := ["step_by_step"] }

/-- Configuration for names containing `max`, `plus` or `235b` (lines 207-224). -/
def advancedConfig : ModelConfig :=
  { category := "advanced", supports_web_search := true, supports_files := true,
    supports_images := some true, supports_audio := none,
    optimal_temperature := 3/10, max_tokens := 6144, thinking_enabled := true,
    output_schema := "phase", fc_thinking_enabled := true,
    fc_output_schema := "phase", fc_extra := ["advanced_reasoning", "image_generation"] }

/-- Configuration for names containing `omni` (lines 225-241). -/
def multimodalConfig : ModelConfig :=
  { category := "multimodal", supports_web_search := true, supports_files := true,
    supports_images := none, supports_audio := some true,
    optimal_temperature := 3/10, max_tokens := 4096, thinking_enabled := false,
    output_schema := "phase", fc_thinking_enabled := false,
    fc_output_schema := "phase", fc_extra := ["multimodal"] }

/-- Default configuration for unrecognized or absent names (lines 242-256). -/
def standardConfig : ModelConfig :=
  { category := "standard", supports_web_search := true, supports_files := true,
    supports_images := none, supports_audio := none,
    optimal_temperature := 3/10, max_tokens := 2048, thinking_enabled := false,
    output_schema := "phase", fc_thinking_enabled := false,
    fc_output_schema := "phase", fc_extra := [] }

/-- `model_name.lower() if model_name else ""` (server.py line 155), as a
character list.  `some ""` and `none` both yield `[]`, exactly as the Python
conditional (the empty string is falsy) does. -/
def modelLower : Option String → List Char
  | none => []
  | some s => s.data.map Char.toLower

/-- Case-normalized substring test `needle in model_lower` used by the rules. -/
def containsSub (needle : String) (hay : List Char) : Bool :=
  charsInfix needle.data hay

/-- `HybridQwenServer._get_model_config` (server.py lines 149-256): total,
first-matching substring classification in the source's fixed rule order. -/
def getModelConfig (model_name : Option String) : ModelConfig :=
  let ml := modelLower model_name
  if containsSub "coder" ml then codingConfig
  else if containsSub "vl" ml || containsSub "vision" ml || containsSub "qvq" ml then
    visionConfig
  else if containsSub "qwq" ml then reasoningConfig
  else if containsSub "max" ml || containsSub "plus" ml || containsSub "235b" ml then
    advancedConfig
  else if containsSub "omni" ml then multimodalConfig
  else standardConfig

/-- `model_name or "qwen3-235b-a22b"` (server.py line 268): Python `or`
returns the right operand when the left is falsy (absent or empty). -/
def effectiveModel : Option String → String
  | none => "qwen3-235b-a22b"
  | some s => if s = "" then "qwen3-235b-a22b" else s

/-! ## Performance Aggregate — `HybridQwenServer._record_performance` -/

/-- The `performance_stats` dict (server.py lines 85-90). -/
structure PerfStats where
  direct_api_calls : ℕ
  browser_fallback_calls : ℕ
  avg_direct_time : ℚ
  avg_browser_time : ℚ
deriving Repr, DecidableEq

/-- Initial statistics at construction (all zero). -/
def initialStats : PerfStats :=
  { direct_api_calls := 0, browser_fallback_calls := 0,
    avg_direct_time := 0, avg_browser_time := 0 }

/-- `HybridQwenServer._record_performance` (server.py lines 130-147).
Returns the mutated statistics together with a flag marking whether the
method raises: after updating the running mean, the source computes
`speed_improvement = avg_browser_time / avg_direct_time` whenever
`avg_browser_time > 0` — the guard tests the numerator, not the
denominator, so the division raises `ZeroDivisionError` exactly when
`avg_browser_time > 0` and `avg_direct_time == 0`.  The mutation of
`performance_stats` has already happened when the division raises. -/
def recordPerformance (stats : PerfStats) (duration : ℚ) (api_type : String) :
    PerfStats × Bool :=
  let stats' :=
    if api_type = "direct" then
      let count := stats.direct_api_calls + 1
      { stats with
        direct_api_calls := count
        avg_direct_time := (stats.avg_direct_time * ((count : ℚ) - 1) + duration) / (count : ℚ) }
    else
      let count := stats.browser_fallback_calls + 1
      { stats with
        browser_fallback_calls := count
        avg_browser_time := (stats.avg_browser_time * ((count : ℚ) - 1) + duration) / (count : ℚ) }
  (stats', decide (0 < stats'.avg_browser_time ∧ stats'.avg_direct_time = 0))

/-- Recording a sequence of direct-path durations starting from fresh
statistics (used to check the incremental average on concrete values). -/
def recordSeq (ds : List ℚ) : PerfStats :=
  ds.foldl (fun s d => (recordPerformance s d "direct").1) initialStats

/-! ## Orchestrator state and collaborator oracles -/

/-- The orchestrator fields relevant to routing (server.py lines 81-114).
`has_direct_client` models `self.direct_client is not None`,
`direct_api_working` the usable flag, `has_generate_image` /
`has_files_method` the `hasattr` tests on the client object (both hold for
the `QwenEnhancedClient` the server imports first). -/
structure ServerState where
  has_direct_client : Bool
  direct_api_working : Bool
  has_generate_image : Bool
  has_files_method : Bool
  stats : PerfStats
deriving Repr, DecidableEq

/-- Arguments of `HybridQwenServer.send_message` (server.py lines 258-259). -/
structure ChatArgs where
  prompt : String
  chat_id : Option String
  use_web_search : Bool
  agent_name : Option String
  model_name : Option String
  file_paths : Option (List String)
deriving Repr, DecidableEq

/-- Which direct-client chat method `send_message` picks (lines 277-295). -/
inductive ChatVariant where
  | plain : ChatVariant
  | webSearch : ChatVariant
  | withFiles : ChatVariant
deriving Repr, DecidableEq

/-- Truthiness of the Python `file_paths` argument (`None` and `[]` falsy). -/
def filesTruthy : Option (List String) → Bool
  | some (_ :: _) => true
  | _ => false

/-- The branch selection `if use_web_search ... elif file_paths and
hasattr(self.direct_client, 'send_chat_with_files') ... else` (lines 277-292). -/
def chatVariant (st : ServerState) (a : ChatArgs) : ChatVariant :=
  if a.use_web_search then .webSearch
  else if filesTruthy a.file_paths && st.has_files_method then .withFiles
  else .plain

/-- Observable collaborator invocations of one orchestrator call.  A direct
chat attempt is one event carrying the parameters the orchestrator passes
(the file-upload round trips inside the `withFiles` variant belong to the
same attempt).  Browser events carry the arguments forwarded to the
browser-automation functions. -/
inductive Event where
  | directChat : ChatVariant → String → Option String → String → ModelConfig → Event
  | directImage : String → Option String → Event
  | directModels : Event
  | browserAsk : String → Option String → Bool → Option (List String) →
      Option String → Option String → Event
  | browserImage : String → Event
  | browserModels : Event
deriving Repr, DecidableEq

/-- An event on the direct path (a direct-client HTTP operation). -/
def Event.isDirectPath : Event → Bool
  | .directChat _ _ _ _ _ => true
  | .directImage _ _ => true
  | .directModels => true
  | _ => false

/-- An event on the browser-automation path. -/
def Event.isBrowserPath (e : Event) : Bool := !e.isDirectPath

/-- Outcomes of the collaborators consulted by one `send_message` call.
`directResult` is the dict returned by whichever direct-client chat method is
invoked, or `.error` when that call raises (the direct client is documented
to catch its own transport errors, but the orchestrator guards against a
raise anyway); `browserResult` is the outcome of `ask_qwen`.  The durations
are the elapsed wall-clock times measured at the two recording points. -/
structure ChatOracle where
  directResult : Except String JVal
  directDuration : ℚ
  browserResult : Except String JVal
  browserDuration : ℚ

/-- Response-text normalization inside `send_message` (server.py lines
302-309): prefer `result['data']['data']['choices'][0]['message']['content']`
when the nested `choices` value is truthy, otherwise use a truthy flat
`result['response']`, defaulting to the empty string. -/
def extractResponseText (result : JVal) : Except String JVal :=
  match pyDictGet result "data" (.jobj []) with
  | .error e => .error e
  | .ok d1 =>
    match pyDictGet d1 "data" (.jobj []) with
    | .error e => .error e
    | .ok d2 =>
      match pyDictGet d2 "choices" .jnull with
      | .error e => .error e
      | .ok choices =>
        if truthy choices then
          match choices with
          | .jarr (c0 :: _) =>
            (match pyDictGet c0 "message" (.jobj []) with
             | .error e => .error e
             | .ok msg => pyDictGet msg "content" (.jstr ""))
          | .jstr _ => .error "AttributeError"
          | _ => .error "TypeError"
        else
          match pyDictGet result "response" .jnull with
          | .error e => .error e
          | .ok r => if truthy r then .ok r else .ok (.jstr "")

/-- The normalized success dict `send_message` returns on the direct path
(server.py lines 311-316). -/
def directChatReturn (result : JVal) : Except String JVal :=
  match extractResponseText result with
  | .error e => .error e
  | .ok text =>
    match pyDictGet result "chat_id" .jnull with
    | .error e => .error e
    | .ok cid =>
      match pyDictGet result "data" .jnull with
      | .error e => .error e
      | .ok d =>
        .ok (.jobj [("success", .jbool true), ("response", text),
                    ("chat_id", cid), ("data", d)])

/-- The direct-path attempt of `send_message` (server.py lines 272-321):
everything inside the `try` block.  Returns the statistics after the attempt
(they are mutated as soon as `_record_performance` runs, even when it then
raises) and `some returnDict` only when the direct path returns; any raise
inside the block is caught by the `except` and yields `none` (fall through
to the browser path), as does a result whose `success` is falsy. -/
def directChatPhase (st : ServerState) (o : ChatOracle) : PerfStats × Option JVal :=
  if st.direct_api_working && st.has_direct_client then
    match o.directResult with
    | .error _ => (st.stats, none)
    | .ok result =>
      match pyDictGet result "success" .jnull with
      | .error _ => (st.stats, none)
      | .ok succ =>
        if truthy succ then
          let rp := recordPerformance st.stats o.directDuration "direct"
          if rp.2 then (rp.1, none)
          else
            match directChatReturn result with
            | .error _ => (rp.1, none)
            | .ok ret => (rp.1, some ret)
        else (st.stats, none)
  else (st.stats, none)

/-- `HybridQwenServer.send_message` (server.py lines 258-333).  The browser
fallback (lines 323-333) is guarded only by `try/finally`, so an exception
raised by `ask_qwen` or by `_record_performance` propagates to the caller;
`_record_performance` raising `ZeroDivisionError` surfaces as
`.error "division by zero"` (the text of the Python exception). -/
def sendMessage (st : ServerState) (a : ChatArgs) (o : ChatOracle) :
    ServerState × Except String JVal × List Event :=
  let dp := directChatPhase st o
  let devs : List Event :=
    if st.direct_api_working && st.has_direct_client then
      [.directChat (chatVariant st a) a.prompt a.chat_id
        (effectiveModel a.model_name) (getModelConfig a.model_name)]
    else []
  let evs : List Event :=
    match dp.2 with
    | some _ => devs
    | none => devs ++ [.browserAsk a.prompt a.chat_id a.use_web_search
        a.file_paths a.agent_name a.model_name]
  let fin : PerfStats × Except String JVal :=
    match dp.2 with
    | some ret => (dp.1, .ok ret)
    | none =>
      match o.browserResult with
      | .error e => (dp.1, .error e)
      | .ok b =>
        let rp := recordPerformance dp.1 o.browserDuration "browser"
        if rp.2 then (rp.1, .error "division by zero") else (rp.1, .ok b)
  ({ st with stats := fin.1 }, fin.2, evs)

/-- Collaborator outcomes for one `generate_image` orchestrator call. -/
structure ImgOrcOracle where
  directResult : Except String JVal
  directDuration : ℚ
  browserResult : Except String JVal
  browserDuration : ℚ

/-- The success test on the direct image result (server.py line 348):
`result.get('success') and result.get('image_url')`. -/
def directImgCheck (result : JVal) : Except String Bool :=
  match pyDictGet result "success" .jnull with
  | .error e => .error e
  | .ok s =>
    if truthy s then
      match pyDictGet result "image_url" .jnull with
      | .error e => .error e
      | .ok u => .ok (truthy u)
    else .ok false

/-- The direct-path attempt of `generate_image` (server.py lines 342-357). -/
def directImgPhase (st : ServerState) (o : ImgOrcOracle) : PerfStats × Option JVal :=
  if st.direct_api_working && st.has_direct_client && st.has_generate_image then
    match o.directResult with
    | .error _ => (st.stats, none)
    | .ok result =>
      match directImgCheck result with
      | .error _ => (st.stats, none)
      | .ok ok =>
        if ok then
          let rp := recordPerformance st.stats o.directDuration "direct"
          if rp.2 then (rp.1, none) else (rp.1, some result)
        else (st.stats, none)
  else (st.stats, none)

/-- The failure dict built by `generate_image`'s browser `except` clause
(server.py lines 380-385); the message interpolates the caught exception. -/
def imgFailDict (e : String) (chat_id : Option String) : JVal :=
  .jobj [("success", .jbool false),
         ("error", .jstr ("Image generation failed: " ++ e)),
         ("image_url", .jnull),
         ("chat_id", match chat_id with | none => .jnull | some s => .jstr s)]

/-- `HybridQwenServer.generate_image` (server.py lines 335-391).  The
browser-manager availability test at lines 360-367 is always false — the
constructor unconditionally assigns a `BrowserManager`, which has a
`get_page` attribute — so it is not modelled.  Unlike `send_message`, the
browser fallback here is wrapped in `try/except`, so even a raise inside it
(including `_record_performance`'s `ZeroDivisionError`) is converted to a
structured failure dict. -/
def generateImage (st : ServerState) (prompt : String) (chat_id : Option String)
    (o : ImgOrcOracle) : ServerState × Except String JVal × List Event :=
  let dp := directImgPhase st o
  let devs : List Event :=
    if st.direct_api_working && st.has_direct_client && st.has_generate_image then
      [.directImage prompt chat_id]
    else []
  let evs : List Event :=
    match dp.2 with
    | some _ => devs
    | none => devs ++ [.browserImage prompt]
  let fin : PerfStats × Except String JVal :=
    match dp.2 with
    | some r => (dp.1, .ok r)
    | none =>
      match o.browserResult with
      | .error e => (dp.1, .ok (imgFailDict e chat_id))
      | .ok b =>
        let rp := recordPerformance dp.1 o.browserDuration "browser"
        if rp.2 then (rp.1, .ok (imgFailDict "division by zero" chat_id))
        else (rp.1, .ok b)
  ({ st with stats := fin.1 }, fin.2, evs)

/-- Collaborator outcomes for one `get_models` orchestrator call. -/
structure ModelsOracle where
  directResult : Except String JVal
  directDuration : ℚ
  browserResult : Except String JVal
  browserDuration : ℚ

/-- The direct-path attempt of `get_models` (server.py lines 399-408). -/
def directModelsPhase (st : ServerState) (o : ModelsOracle) : PerfStats × Option JVal :=
  if st.direct_api_working && st.has_direct_client then
    match o.directResult with
    | .error _ => (st.stats, none)
    | .ok result =>
      match pyDictGet result "success" .jnull with
      | .error _ => (st.stats, none)
      | .ok s =>
        if truthy s then
          let rp := recordPerformance st.stats o.directDuration "direct"
          if rp.2 then (rp.1, none) else (rp.1, some result)
        else (st.stats, none)
  else (st.stats, none)

/-- `HybridQwenServer.get_models` (server.py lines 393-418).  As in
`send_message`, the browser fallback has only `try/finally`, so a raising
`_record_performance` or browser call propagates. -/
def getModels (st : ServerState) (o : ModelsOracle) :
    ServerState × Except String JVal × List Event :=
  let dp := directModelsPhase st o
  let devs : List Event :=
    if st.direct_api_working && st.has_direct_client then [.directModels] else []
  let evs : List Event :=
    match dp.2 with
    | some _ => devs
    | none => devs ++ [.browserModels]
  let fin : PerfStats × Except String JVal :=
    match dp.2 with
    | some r => (dp.1, .ok r)
    | none =>
      match o.browserResult with
      | .error e => (dp.1, .error e)
      | .ok b =>
        let rp := recordPerformance dp.1 o.browserDuration "browser"
        if rp.2 then (rp.1, .error "division by zero") else (rp.1, .ok b)
  ({ st with stats := fin.1 }, fin.2, evs)

/-- Truthiness of the stored JWT token (`if self.direct_client.jwt_token`). -/
def jwtTruthy : Option String → Bool
  | none => false
  | some s => !(s == "")

/-- `HybridQwenServer.__init__` (server.py lines 81-114).  `directAvailable`
models `DIRECT_API_AVAILABLE`, `ctorOk` whether `QwenEnhancedClient()`
returns without raising, `jwt` the stored token, and `authSuccess` the value
of `auth_result.get('success', False)` from the construction-time probe
(`get_auth_status` itself never raises).  The usable flag is set here and
nowhere else. -/
def initServer (directAvailable ctorOk : Bool) (jwt : Option String)
    (authSuccess : JVal) : ServerState :=
  if directAvailable then
    if ctorOk then
      { has_direct_client := true, has_generate_image := true, has_files_method := true,
        direct_api_working := if jwtTruthy jwt then truthy authSuccess else false,
        stats := initialStats }
    else
      { has_direct_client := false, has_generate_image := false, has_files_method := false,
        direct_api_working := false, stats := initialStats }
  else
    { has_direct_client := false, has_generate_image := false, has_files_method := false,
      direct_api_working := false, stats := initialStats }

/-- Read-only view produced by `get_performance_stats` (server.py lines
420-433); the derived fields are present only under the source's guards
(here the ratio fields are percentages, and the speed-up requires both
averages positive — this division, unlike `_record_performance`'s, is
correctly guarded). -/
structure StatsView where
  direct_api_calls : ℕ
  browser_fallback_calls : ℕ
  avg_direct_time : ℚ
  avg_browser_time : ℚ
  direct_api_share : Option ℚ
  browser_fallback_share : Option ℚ
  speed_improvement : Option ℚ
deriving Repr, DecidableEq

/-- `HybridQwenServer.get_performance_stats`: pure read of the state.  The
`direct_api_share` / `browser_fallback_share` fields carry the source's
`direct_api_ratio` / `browser_fallback_ratio` keys. -/
def getPerformanceStats (st : ServerState) : ServerState × StatsView :=
  let s := st.stats
  let total := s.direct_api_calls + s.browser_fallback_calls
  (st,
   { direct_api_calls := s.direct_api_calls
     browser_fallback_calls := s.browser_fallback_calls
     avg_direct_time := s.avg_direct_time
     avg_browser_time := s.avg_browser_time
     direct_api_share :=
       if 0 < total then some (((s.direct_api_calls : ℚ) / (total : ℚ)) * 100) else none
     browser_fallback_share :=
       if 0 < total then some (((s.browser_fallback_calls : ℚ) / (total : ℚ)) * 100) else none
     speed_improvement :=
       if 0 < s.avg_browser_time ∧ 0 < s.avg_direct_time then
         some (s.avg_browser_time / s.avg_direct_time)
       else none })

/-! ## Direct client image generation — `QwenEnhancedClient`

The URL-pattern scan at enhanced_client.py lines 146-157 runs five regular
expressions (with `re.IGNORECASE`) over the message content.  Each pattern is
embedded as an executable existence test: `pNAt cs` decides whether pattern N
matches starting at the head of `cs`, and `anyPos` quantifies over all start
offsets — together they decide exactly whether `re.findall` finds a match. -/

/-- Does `f` hold at some suffix position of the list (including the end)? -/
def anyPos (f : List Char → Bool) : List Char → Bool
  | [] => f []
  | c :: rest => f (c :: rest) || anyPos f rest

/-- Consume a literal (given lowercase) case-insensitively, returning the rest. -/
def stripCI : List Char → List Char → Option (List Char)
  | [], rest => some rest
  | _ :: _, [] => none
  | l :: ls, c :: cs => if c.toLower = l then stripCI ls cs else none

/-- Python `\s` on the characters relevant here. -/
def isSpaceChar (c : Char) : Bool :=
  c = ' ' || c = '\t' || c = '\n' || c = '\r' || c = Char.ofNat 11 || c = Char.ofNat 12

/-- Character class `[^\s<>"]` of the URL patterns. -/
def urlBodyChar (c : Char) : Bool :=
  !(isSpaceChar c || c = '<' || c = '>' || c = '"')

/-- One of the given lowercase literals occurs right here (case-insensitive). -/
def extHere (exts : List (List Char)) (cs : List Char) : Bool :=
  exts.any fun e => (stripCI e cs).isSome

/-- After `https?://`: both continuations (with and without the optional `s`). -/
def afterScheme (cs : List Char) : List (List Char) :=
  match stripCI "http".data cs with
  | none => []
  | some r1 =>
    let withS :=
      match r1 with
      | c :: r2 => if c.toLower = 's' then (stripCI "://".data r2).toList else []
      | [] => []
    withS ++ (stripCI "://".data r1).toList

/-- Extensions of pattern 1. -/
def imgExt1 : List (List Char) :=
  ["jpg".data, "jpeg".data, "png".data, "gif".data, "webp".data, "bmp".data, "svg".data]

/-- Pattern 1 after the scheme and one body character: more body characters,
then a dot followed by an image extension. -/
def p1Tail : List Char → Bool
  | [] => false
  | c :: rest => (c = '.' && extHere imgExt1 rest) || (urlBodyChar c && p1Tail rest)

/-- Pattern 1 `https?://[^\s<>"]+\.(jpg|jpeg|png|gif|webp|bmp|svg)` at the head. -/
def p1At (cs : List Char) : Bool :=
  (afterScheme cs).any fun r =>
    match r with
    | c :: rest => urlBodyChar c && p1Tail rest
    | [] => false

/-- Character class `[^)\s<>"]` of pattern 2. -/
def p2BodyChar (c : Char) : Bool :=
  !(isSpaceChar c || c = ')' || c = '<' || c = '>' || c = '"')

/-- Pattern 2 `blob:[^)\s<>"]+` at the head. -/
def p2At (cs : List Char) : Bool :=
  match stripCI "blob:".data cs with
  | some (c :: _) => p2BodyChar c
  | _ => false

/-- Base64 alphabet `[A-Za-z0-9+/=]`. -/
def b64Char (c : Char) : Bool :=
  c.isAlpha || c.isDigit || c = '+' || c = '/' || c = '='

/-- Pattern 3 after `data:image/` and one non-semicolon character: scan to the
first `;`, which must be followed by `base64,` and a base64 character
(`[^;]+` cannot cross the semicolon, so no backtracking exists). -/
def p3Scan : List Char → Bool
  | [] => false
  | c :: rest =>
    if c = ';' then
      match stripCI "base64,".data rest with
      | some (d :: _) => b64Char d
      | _ => false
    else p3Scan rest

/-- Pattern 3 `data:image/[^;]+;base64,[A-Za-z0-9+/=]+` at the head. -/
def p3At (cs : List Char) : Bool :=
  match stripCI "data:image/".data cs with
  | some (c :: rest) => !(c = ';') && p3Scan rest
  | _ => false

/-- Keywords of pattern 4. -/
def kw4 : List (List Char) :=
  ["file".data, "image".data, "attachment".data, "media".data]

/-- After a candidate separator slash in pattern 4: a keyword, another slash
and at least one body character. -/
def p4AfterSlash (cs : List Char) : Bool :=
  kw4.any fun k =>
    match stripCI k cs with
    | some ('/' :: d :: _) => urlBodyChar d
    | _ => false

/-- Pattern 4 after the scheme and one body character: try every later slash
as the separator, treating it as a body character otherwise. -/
def p4Tail : List Char → Bool
  | [] => false
  | c :: rest => (c = '/' && p4AfterSlash rest) || (urlBodyChar c && p4Tail rest)

/-- Pattern 4 `https?://[^\s<>"]+/(file|image|attachment|media)/[^\s<>"]+`
at the head. -/
def p4At (cs : List Char) : Bool :=
  (afterScheme cs).any fun r =>
    match r with
    | c :: rest => urlBodyChar c && p4Tail rest
    | [] => false

/-- Extensions of pattern 5. -/
def imgExt5 : List (List Char) :=
  ["jpg".data, "jpeg".data, "png".data, "gif".data, "webp".data]

/-- Pattern 5 final segment: body characters, then a dot and an extension. -/
def p5C : List Char → Bool
  | [] => false
  | c :: rest => (c = '.' && extHere imgExt5 rest) || (urlBodyChar c && p5C rest)

/-- Pattern 5 after `qwen`: body characters, then a slash, then `p5C`. -/
def p5B : List Char → Bool
  | [] => false
  | c :: rest => (c = '/' && p5C rest) || (urlBodyChar c && p5B rest)

/-- Pattern 5 after the scheme: body characters, then `qwen`, then `p5B`. -/
def p5A : List Char → Bool
  | [] => false
  | c :: rest =>
    (match stripCI "qwen".data (c :: rest) with
     | some r => p5B r
     | none => false)
    || (urlBodyChar c && p5A rest)

/-- Pattern 5 `https?://[^\s<>"]*qwen[^\s<>"]*/[^\s<>"]*\.(jpg|jpeg|png|gif|webp)`
at the head. -/
def p5At (cs : List Char) : Bool :=
  (afterScheme cs).any p5A

/-- The scan of enhanced_client.py lines 144-158: does any of the five URL
patterns match anywhere in the content string? -/
def contentHasUrlPattern (s : String) : Bool :=
  anyPos p1At s.data || anyPos p2At s.data || anyPos p3At s.data ||
  anyPos p4At s.data || anyPos p5At s.data

mutual

/-- Python `repr` of an embedded value (used by `str(result)` on the
non-string values scanned in the `mcp_results` branch). -/
def pyRepr : JVal → String
  | .jnull => "None"
  | .jbool b => if b then "True" else "False"
  | .jstr s => "\x27" ++ s ++ "\x27"
  | .jnum n => toString n
  | .jarr xs => "[" ++ pyReprArr xs ++ "]"
  | .jobj kvs => "\x7b" ++ pyReprObj kvs ++ "\x7d"

/-- Comma-joined reprs of list elements. -/
def pyReprArr : List JVal → String
  | [] => ""
  | [x] => pyRepr x
  | x :: y :: rest => pyRepr x ++ ", " ++ pyReprArr (y :: rest)

/-- Comma-joined reprs of dict entries. -/
def pyReprObj : List (String × JVal) → String
  | [] => ""
  | [(k, v)] => "\x27" ++ k ++ "\x27: " ++ pyRepr v
  | (k, v) :: p :: rest => "\x27" ++ k ++ "\x27: " ++ pyRepr v ++ ", " ++ pyReprObj (p :: rest)

end

/-- Python `str(v)`: identity on strings, `repr` otherwise. -/
def pyStr : JVal → String
  | .jstr s => s
  | v => pyRepr v

/-- Lowercase a string (Python `str.lower()` on the characters used here). -/
def lowerString (s : String) : String :=
  String.mk (s.data.map Char.toLower)

/-- `item.get('image_url') or item.get('url') or item.get('output')` is
truthy (enhanced_client.py lines 112 and 122). -/
def urlTripleFound (item : JVal) : Except String Bool := do
  let a ← pyDictGet item "image_url" .jnull
  if truthy a then pure true else
    let b ← pyDictGet item "url" .jnull
    if truthy b then pure true else
      let c ← pyDictGet item "output" .jnull
      pure (truthy c)

/-- The `tool_results` loop (enhanced_client.py lines 107-114): an entry
whose `tool_name` equals `image_gen` and that carries a truthy URL value. -/
def scanToolResults : List JVal → Except String Bool
  | [] => pure false
  | item :: rest => do
    let tn ← pyDictGet item "tool_name" .jnull
    let isGen := match tn with | .jstr s => s == "image_gen" | _ => false
    if isGen then
      let f ← urlTripleFound item
      if f then pure true else scanToolResults rest
    else scanToolResults rest

/-- The `mcp_results` loop (lines 117-124): an entry whose `str()` mentions
`image_gen`, or `wanx` case-insensitively, and that carries a truthy URL. -/
def scanMcp : List JVal → Except String Bool
  | [] => pure false
  | item :: rest =>
    if charsInfix "image_gen".data (pyStr item).data
        || charsInfix "wanx".data (lowerString (pyStr item)).data then do
      let f ← urlTripleFound item
      if f then pure true else scanMcp rest
    else scanMcp rest

/-- An attachments loop (lines 135-139 and 336-339): an attachment whose
`type` is in `types` and whose `url` is truthy. -/
def scanAttachments (types : List String) : List JVal → Except String Bool
  | [] => pure false
  | att :: rest => do
    let t ← pyDictGet att "type" .jnull
    let m := match t with | .jstr s => types.contains s | _ => false
    if m then
      let u ← pyDictGet att "url" .jnull
      if truthy u then pure true else scanAttachments types rest
    else scanAttachments types rest

/-- The trailing key probe of the primary extraction (lines 161-169):
`key in response_data and response_data[key]` over the fixed key list. -/
def scanSearchKeysM : List String → JVal → Except String Bool
  | [], _ => pure false
  | k :: ks, rd => do
    let c ← pyContains k rd
    if c then
      let v ← pyIndexKey rd k
      if truthy v then pure true else scanSearchKeysM ks rd
    else scanSearchKeysM ks rd

/-- Key list of lines 162-165. -/
def searchKeys : List String :=
  ["image_url", "url", "file_url", "attachment_url", "generated_image",
   "wanx_image_url", "result_url", "output_url", "media_url"]

/-- Whether the primary extraction of `QwenEnhancedClient.generate_image`
(enhanced_client.py lines 100-169) finds an image URL in the decoded body.
The extracted URL itself is a nonempty matched string whenever one is found,
so its Python truthiness is exactly this flag; the claims only depend on
that truthiness.  `.error` marks a raise inside the extraction, which the
method's outer `except` turns into a failure dict. -/
def extractImageUrlFound (data : JVal) : Except String Bool := do
  let succ ← pyDictGet data "success" .jnull
  if truthy succ then do
    let hasData ← pyContains "data" data
    if hasData then do
      let rd ← pyIndexKey data "data"
      let f1 ← (do
        let c ← pyContains "tool_results" rd
        if c then do
          let tr ← pyIndexKey rd "tool_results"
          match tr with
          | .jarr (x :: xs) => scanToolResults (x :: xs)
          | _ => pure false
        else pure false)
      if f1 then pure true else do
        let f2 ← (do
          let c ← pyContains "mcp_results" rd
          if c then do
            let mr ← pyIndexKey rd "mcp_results"
            match mr with
            | .jarr (x :: xs) => scanMcp (x :: xs)
            | _ => pure false
          else pure false)
        if f2 then pure true else do
          let f3 ← (do
            let c ← pyContains "choices" rd
            if c then do
              let choices ← pyIndexKey rd "choices"
              if truthy choices then do
                let lp ← pyLenPos choices
                if lp then do
                  let choice ← pyIndexZero choices
                  let hasMsg ← pyContains "message" choice
                  if hasMsg then do
                    let msg ← pyIndexKey choice "message"
                    let hasAtt ← pyContains "attachments" msg
                    let fa ← (if hasAtt then do
                        let atts ← pyIndexKey msg "attachments"
                        let elems ← iterElems atts
                        scanAttachments ["image", "picture", "file"] elems
                      else pure false)
                    if fa then pure true else do
                      let content ← pyDictGet msg "content" (.jstr "")
                      match content with
                      | .jstr s => pure (contentHasUrlPattern s)
                      | _ => .error "TypeError"
                  else pure false
                else pure false
              else pure false
            else pure false)
          if f3 then pure true else scanSearchKeysM searchKeys rd
    else pure false
  else pure false

/-- The items loop of `_extract_image_url_from_response` (lines 314-328):
non-dict items are skipped by the `isinstance` guard; a dict item counts
when one of the URL keys is present and truthy. -/
def scanItemsUrlKeys : List JVal → Bool
  | [] => false
  | item :: rest =>
    (match item with
     | .jobj kvs =>
       ["url", "image_url", "file_url", "attachment_url", "output"].any fun k =>
         match jlookupL kvs k with
         | some v => truthy v
         | none => false
     | _ => false)
    || scanItemsUrlKeys rest

/-- Location list of lines 309-312. -/
def searchLocations : List String :=
  ["tool_calls", "tool_results", "mcp_results", "function_calls",
   "attachments", "files", "media", "images"]

/-- The location loop of `_extract_image_url_from_response` (lines 314-328). -/
def scanLocations : List String → JVal → Except String Bool
  | [], _ => pure false
  | loc :: rest, rd => do
    let c ← pyContains loc rd
    if c then do
      let r ← pyIndexKey rd loc
      let f := match r with
        | .jarr (x :: xs) => scanItemsUrlKeys (x :: xs)
        | _ => false
      if f then pure true else scanLocations rest rd
    else scanLocations rest rd

/-- Whether `QwenEnhancedClient._extract_image_url_from_response`
(enhanced_client.py lines 297-341) finds an image URL (truthiness of its
return value, which is `None` or a nonempty URL string). -/
def extractImageUrlFromResponseFound (data : JVal) : Except String Bool := do
  let succ ← pyDictGet data "success" .jnull
  if !truthy succ then pure false
  else do
    let hasData ← pyContains "data" data
    if !hasData then pure false
    else do
      let rd ← pyIndexKey data "data"
      let f1 ← scanLocations searchLocations rd
      if f1 then pure true else do
        let c ← pyContains "choices" rd
        if c then do
          let choices ← pyIndexKey rd "choices"
          if truthy choices then do
            let lp ← pyLenPos choices
            if lp then do
              let choice ← pyIndexZero choices
              let hm ← pyContains "message" choice
              if hm then do
                let msg ← pyIndexKey choice "message"
                let ha ← pyContains "attachments" msg
                if ha then do
                  let atts ← pyIndexKey msg "attachments"
                  let elems ← iterElems atts
                  scanAttachments ["image", "picture"] elems
                else pure false
              else pure false
            else pure false
          else pure false
        else pure false

/-- Truthiness of the `success` / `image_url` slots of the dict
`QwenEnhancedClient.generate_image` returns — the only parts of it the
orchestrator's decision inspects. -/
structure ImgClientResult where
  success : Bool
  image_url_found : Bool
deriving Repr, DecidableEq

/-- HTTP outcomes consumed by one client `generate_image` call:
`createChat` is the dict returned by `create_new_chat` (that method catches
its own errors and always returns a dict), `resp1` the decoded body of the
primary `chat/completions` POST (`.error` for a transport error,
`raise_for_status` failure or undecodable body), and `resp2` the status code
and decoded body of the alternative POST issued by
`_try_alternative_image_generation`. -/
structure ImgOracle where
  createChat : JVal
  resp1 : Except String JVal
  resp2 : Except String (ℕ × JVal)

/-- The `create_new_chat` result check of `generate_image` (lines 42-46):
`ok true` when the new chat id is obtained, `ok false` when the creation
reports failure, `.error` when indexing the result raises. -/
def createChatOk (cc : JVal) : Except String Bool := do
  let s ← pyDictGet cc "success" .jnull
  if truthy s then do
    let d ← pyIndexKey cc "data"
    let _ ← pyIndexKey d "id"
    pure true
  else pure false

/-- The conversation-resolution step of `generate_image` (lines 42-46):
trivially fine when a `chat_id` was passed, otherwise the outcome of the
`create_new_chat` round trip. -/
def chatOkFor (chat_id : Option String) (o : ImgOracle) : Except String Bool :=
  match chat_id with
  | some _ => .ok true
  | none => createChatOk o.createChat

/-- `QwenEnhancedClient.generate_image` composed with
`_try_alternative_image_generation` (enhanced_client.py lines 37-295),
returning the result truthiness together with the number of
`chat/completions` POST requests issued on the direct path.  When the
primary response decodes but yields no extractable image URL, the method
does not fail: it first issues the alternative POST (line 189), so that
scenario always counts two requests. -/
def clientGenerateImage (chat_id : Option String) (o : ImgOracle) :
    ImgClientResult × ℕ :=
  match chatOkFor chat_id o with
  | .error _ => ({ success := false, image_url_found := false }, 0)
  | .ok false => ({ success := false, image_url_found := false }, 0)
  | .ok true =>
    match o.resp1 with
    | .error _ => ({ success := false, image_url_found := false }, 1)
    | .ok body =>
      match extractImageUrlFound body with
      | .error _ => ({ success := false, image_url_found := false }, 1)
      | .ok true => ({ success := true, image_url_found := true }, 1)
      | .ok false =>
        match o.resp2 with
        | .error _ => ({ success := false, image_url_found := false }, 2)
        | .ok (status, body2) =>
          if status = 200 then
            match extractImageUrlFromResponseFound body2 with
            | .error _ => ({ success := false, image_url_found := false }, 2)
            | .ok true => ({ success := true, image_url_found := true }, 2)
            | .ok false => ({ success := false, image_url_found := false }, 2)
          else ({ success := false, image_url_found := false }, 2)

/-! ## Derived predicates and concrete fixtures -/

/-- The direct chat attempt is disqualifying for `send_message`: the call
raised, or the returned dict's `success` is falsy (including the raise on a
non-dict result).  This is exactly the complement of the `if
result.get('success')` branch of server.py lines 297-316. -/
def directChatDisqualified (o : ChatOracle) : Bool :=
  match o.directResult with
  | .error _ => true
  | .ok r =>
    match pyDictGet r "success" .jnull with
    | .error _ => true
    | .ok s => !truthy s

/-- Number of direct-path collaborator invocations in a trace. -/
def directEventCount (evs : List Event) : ℕ :=
  (evs.filter Event.isDirectPath).length

/-- Number of browser-path collaborator invocations in a trace. -/
def browserEventCount (evs : List Event) : ℕ :=
  (evs.filter Event.isBrowserPath).length

/-- Body builder for the nested chat shape
`data.data.choices[0].message.content`. -/
def nestedChatBody (a : String) : JVal :=
  .jobj [("data", .jobj [("data", .jobj [("choices", .jarr [
    .jobj [("message", .jobj [("content", .jstr a)])]])])])]

/-- Body builder for the flat chat shape carrying only `response`. -/
def flatChatBody (b : String) : JVal :=
  .jobj [("response", .jstr b)]

/-- Body carrying both the nested and the flat location. -/
def bothChatBody (a b : String) : JVal :=
  .jobj [("data", .jobj [("data", .jobj [("choices", .jarr [
            .jobj [("message", .jobj [("content", .jstr a)])]])])]),
         ("response", .jstr b)]

/-- A structurally successful image-generation body whose only content is
plain text in `choices[0].message.content`, with no URL-like pattern. -/
def syntheticNoUrlBody : JVal :=
  .jobj [("success", .jbool true),
         ("data", .jobj [("choices", .jarr [
            .jobj [("message", .jobj [("content",
              .jstr "Here is a description of a sunset image you asked for.")])]])])]

/-- Client image-generation oracle: primary response decodes to the
synthetic no-URL body, alternative response is HTTP 200 with a failure body. -/
def imgOracleNoUrl : ImgOracle :=
  { createChat := .jnull, resp1 := .ok syntheticNoUrlBody,
    resp2 := .ok (200, .jobj [("success", .jbool false)]) }

/-- Server whose construction-time probe failed: browser-only mode. -/
def stBrowserOnly : ServerState :=
  { has_direct_client := false, direct_api_working := false,
    has_generate_image := false, has_files_method := false, stats := initialStats }

/-- Server whose direct client is usable, with fresh statistics. -/
def stUsableFresh : ServerState :=
  { has_direct_client := true, direct_api_working := true,
    has_generate_image := true, has_files_method := true, stats := initialStats }

/-- A minimal `send_message` argument record. -/
def argsHello : ChatArgs :=
  { prompt := "hello", chat_id := none, use_web_search := false,
    agent_name := none, model_name := none, file_paths := none }

/-- The dict the repository's `ask_qwen` stub returns. -/
def browserFailureDict : JVal :=
  .jobj [("success", .jbool false),
         ("error", .jstr "Browser automation not available"),
         ("response", .jstr "Direct API only")]

/-- The dict the repository's `get_available_models` stub returns. -/
def browserModelsDict : JVal :=
  .jobj [("success", .jbool false),
         ("error", .jstr "Browser model fetching not available"),
         ("data", .jarr [])]

/-- A failed direct chat result dict. -/
def directFailDict : JVal :=
  .jobj [("success", .jbool false),
         ("error", .jstr "Chat completion failed: HTTP 500")]

/-- A successful browser chat result dict. -/
def browserOkDict : JVal :=
  .jobj [("success", .jbool true), ("response", .jstr "browser answer"),
         ("chat_id", .jnull)]

/-- Chat oracle for a browser-only call taking one second. -/
def chatOracleBrowserOnly : ChatOracle :=
  { directResult := .error "unused", directDuration := 0,
    browserResult := .ok browserFailureDict, browserDuration := 1 }

/-- Models oracle for a browser-only call taking one second. -/
def modelsOracleBrowserOnly : ModelsOracle :=
  { directResult := .error "unused", directDuration := 0,
    browserResult := .ok browserModelsDict, browserDuration := 1 }

/-- Chat oracle: direct path returns a failure dict, browser succeeds after
one second. -/
def chatOracleDirectFail : ChatOracle :=
  { directResult := .ok directFailDict, directDuration := 0,
    browserResult := .ok browserOkDict, browserDuration := 1 }

/-- As `chatOracleDirectFail` but with a zero-duration browser call (the
borderline at which the performance recording does not raise). -/
def chatOracleDirectFailZero : ChatOracle :=
  { directResult := .ok directFailDict, directDuration := 0,
    browserResult := .ok browserOkDict, browserDuration := 0 }

/-- A direct image result that reports success without any image URL. -/
def directImgNoUrlDict : JVal :=
  .jobj [("success", .jbool true), ("image_url", .jnull),
         ("chat_id", .jstr "c1"), ("data", .jobj [])]

/-- A successful browser image result dict. -/
def browserImgOkDict : JVal :=
  .jobj [("success", .jbool true),
         ("image_url", .jstr "https://img.example.com/a.png"),
         ("chat_id", .jstr "c1")]

/-- Image orchestration oracle: direct reports success without URL, browser
succeeds instantly. -/
def imgOrcOracleNoUrl : ImgOrcOracle :=
  { directResult := .ok directImgNoUrlDict, directDuration := 0,
    browserResult := .ok browserImgOkDict, browserDuration := 0 }

/-! ## Helper lemmas -/

/-- The two path tags compared by `_record_performance` differ. -/
lemma browser_ne_direct : ¬ ("browser" = "direct") :=
  of_decide_eq_false rfl

/-- Recording a zero browser duration on fresh statistics does not raise. -/
lemma record_browser_zero_fresh :
    (recordPerformance initialStats 0 "browser").2 = false := by
  simp [recordPerformance, initialStats]

/-- Recording a one-second browser duration on fresh statistics raises
`ZeroDivisionError` (positive browser average, zero direct average). -/
lemma record_browser_one_raises_fresh :
    (recordPerformance initialStats 1 "browser").2 = true := by
  simp only [recordPerformance, initialStats, if_neg browser_ne_direct]
  norm_num

/-- A disqualifying direct chat outcome leaves the statistics untouched and
yields no direct-path return (server.py lines 297-321). -/
lemma directChatPhase_disqualified (st : ServerState) (o : ChatOracle)
    (h : directChatDisqualified o = true) :
    directChatPhase st o = (st.stats, none) := by
  rcases ho : o.directResult with e | r
  · by_cases hg : (st.direct_api_working && st.has_direct_client) = true <;>
      simp [directChatPhase, ho, hg]
  · rcases hpg : pyDictGet r "success" .jnull with e2 | s
    · by_cases hg : (st.direct_api_working && st.has_direct_client) = true <;>
        simp [directChatPhase, ho, hpg, hg]
    · have hs : truthy s = false := by
        have := h
        simp only [directChatDisqualified, ho, hpg, Bool.not_eq_true'] at this
        exact this
      by_cases hg : (st.direct_api_working && st.has_direct_client) = true <;>
        simp [directChatPhase, ho, hpg, hs, hg]

/-- A direct image result failing the `success and image_url` test leaves the
statistics untouched and yields no direct-path return (server.py 343-357). -/
lemma directImgPhase_noUrl (st : ServerState) (o : ImgOrcOracle) (r : JVal)
    (ho : o.directResult = .ok r) (hchk : directImgCheck r = .ok false) :
    directImgPhase st o = (st.stats, none) := by
  by_cases hg : (st.direct_api_working && st.has_direct_client && st.has_generate_image) = true <;>
    simp [directImgPhase, ho, hchk, hg]

/-! ## Claim theorems -/

/-- C2: the model-configuration lookup is total by construction (a Lean
function on `Option String`), and classifies by case-insensitive
first-matching substring in the fixed priority order `coder` →
`vl`/`vision`/`qvq` → `qwq` → `max`/`plus`/`235b` → `omni` → standard
default.  Every name containing `coder` yields the coding configuration with
thinking enabled; an absent name, or one containing none of the recognized
substrings, yields the standard configuration with thinking disabled. -/
theorem modelConfig_classification :
    (∀ s : String, containsSub "coder" (modelLower (some s)) = true →
        getModelConfig (some s) = codingConfig) ∧
    (∀ s : String, containsSub "coder" (modelLower (some s)) = false →
        (containsSub "vl" (modelLower (some s)) || containsSub "vision" (modelLower (some s)) ||
          containsSub "qvq" (modelLower (some s))) = true →
        getModelConfig (some s) = visionConfig) ∧
    (∀ s : String, containsSub "coder" (modelLower (some s)) = false →
        (containsSub "vl" (modelLower (some s)) || containsSub "vision" (modelLower (some s)) ||
          containsSub "qvq" (modelLower (some s))) = false →
        containsSub "qwq" (modelLower (some s)) = true →
        getModelConfig (some s) = reasoningConfig) ∧
    (∀ s : String, containsSub "coder" (modelLower (some s)) = false →
        (containsSub "vl" (modelLower (some s)) || containsSub "vision" (modelLower (some s)) ||
          containsSub "qvq" (modelLower (some s))) = false →
        containsSub "qwq" (modelLower (some s)) = false →
        (containsSub "max" (modelLower (some s)) || containsSub "plus" (modelLower (some s)) ||
          containsSub "235b" (modelLower (some s))) = true →
        getModelConfig (some s) = advancedConfig) ∧
    (∀ s : String, containsSub "coder" (modelLower (some s)) = false →
        (containsSub "vl" (modelLower (some s)) || containsSub "vision" (modelLower (some s)) ||
          containsSub "qvq" (modelLower (some s))) = false →
        containsSub "qwq" (modelLower (some s)) = false →
        (containsSub "max" (modelLower (some s)) || containsSub "plus" (modelLower (some s)) ||
          containsSub "235b" (modelLower (some s))) = false →
        containsSub "omni" (modelLower (some s)) = false →
        getModelConfig (some s) = standardConfig) ∧
    getModelConfig none = standardConfig ∧
    codingConfig.category = "coding" ∧ codingConfig.thinking_enabled = true ∧
    standardConfig.category = "standard" ∧ standardConfig.thinking_enabled = false := by
  refine ⟨?_, ?_, ?_, ?_, ?_, rfl, rfl, rfl, rfl, rfl⟩
  · intro s h1
    simp [getModelConfig, h1]
  · intro s h1 h2
    simp [getModelConfig, h1, h2]
  · intro s h1 h2 h3
    simp [getModelConfig, h1, h2, h3]
  · intro s h1 h2 h3 h4
    simp [getModelConfig, h1, h2, h3, h4]
  · intro s h1 h2 h3 h4 h5
    simp [getModelConfig, h1, h2, h3, h4, h5]

/-- Witness for C2 at concrete model names: a coder model and an
unrecognized model. -/
theorem modelConfig_classification_witness :
    getModelConfig (some "Qwen2.5-Coder-32B") = codingConfig ∧
    getModelConfig (some "qwen-turbo") = standardConfig :=
  ⟨modelConfig_classification.1 "Qwen2.5-Coder-32B" rfl,
   modelConfig_classification.2.2.2.2.1 "qwen-turbo" rfl rfl rfl rfl rfl⟩

/-- C5: the direct-path chat normalization prefers the nested
`data.data.choices[0].message.content` location and falls back to the flat
`response` field; the nested body for `hi` normalizes to `hi`, the flat body
for `hi` normalizes to `hi`, and with both present the nested value wins. -/
theorem chat_response_normalization :
    (∀ a : String, extractResponseText (nestedChatBody a) = .ok (.jstr a)) ∧
    (∀ b : String, extractResponseText (flatChatBody b) = .ok (.jstr b)) ∧
    (∀ a b : String, extractResponseText (bothChatBody a b) = .ok (.jstr a)) ∧
    extractResponseText (nestedChatBody "hi") = .ok (.jstr "hi") ∧
    extractResponseText (flatChatBody "hi") = .ok (.jstr "hi") := by
  refine ⟨fun a => rfl, ?_, fun a b => rfl, rfl, rfl⟩
  intro b
  by_cases hb : b = ""
  · subst hb; rfl
  · simp [extractResponseText, flatChatBody, pyDictGet, jlookupL, truthy, hb]

/-- C8: `_record_performance` updates the per-path running mean by the
incremental-average formula with the post-increment count, leaves the other
path untouched, and on the direct path the sequence 2, 4 yields average 3
and a further 6 yields average 4, exactly. -/
theorem record_incremental_average :
    (∀ (s : PerfStats) (x : ℚ),
      (recordPerformance s x "direct").1.direct_api_calls = s.direct_api_calls + 1 ∧
      (recordPerformance s x "direct").1.avg_direct_time =
        (s.avg_direct_time * (((s.direct_api_calls + 1 : ℕ) : ℚ) - 1) + x) /
          ((s.direct_api_calls + 1 : ℕ) : ℚ) ∧
      (recordPerformance s x "direct").1.browser_fallback_calls = s.browser_fallback_calls ∧
      (recordPerformance s x "direct").1.avg_browser_time = s.avg_browser_time) ∧
    (∀ (s : PerfStats) (x : ℚ),
      (recordPerformance s x "browser").1.browser_fallback_calls = s.browser_fallback_calls + 1 ∧
      (recordPerformance s x "browser").1.avg_browser_time =
        (s.avg_browser_time * (((s.browser_fallback_calls + 1 : ℕ) : ℚ) - 1) + x) /
          ((s.browser_fallback_calls + 1 : ℕ) : ℚ) ∧
      (recordPerformance s x "browser").1.direct_api_calls = s.direct_api_calls ∧
      (recordPerformance s x "browser").1.avg_direct_time = s.avg_direct_time) ∧
    (recordSeq [2, 4]).avg_direct_time = 3 ∧
    (recordSeq [2, 4, 6]).avg_direct_time = 4 := by
  refine ⟨?_, ?_, ?_, ?_⟩
  · intro s x
    refine ⟨rfl, rfl, rfl, rfl⟩
  · intro s x
    simp only [recordPerformance, if_neg browser_ne_direct]
    simp
  · norm_num [recordSeq, recordPerformance, initialStats]
  · norm_num [recordSeq, recordPerformance, initialStats]

/-- C9: the usable flag is computed exactly once at construction from the
authentication probe (conjunct 1 characterizes `__init__`), and no operation
ever modifies it or the other routing-relevant fields: `send_message`,
`generate_image` and `get_models` preserve every state field except the
performance statistics, and `get_performance_stats` returns the state
unchanged; hence a process whose probe failed stays in browser-only mode. -/
theorem usable_flag_frame :
    (∀ (da co : Bool) (jwt : Option String) (auth : JVal),
      (initServer da co jwt auth).direct_api_working
        = (da && co && jwtTruthy jwt && truthy auth)) ∧
    (∀ (st : ServerState) (a : ChatArgs) (o : ChatOracle),
      (sendMessage st a o).1.direct_api_working = st.direct_api_working ∧
      (sendMessage st a o).1.has_direct_client = st.has_direct_client ∧
      (sendMessage st a o).1.has_generate_image = st.has_generate_image ∧
      (sendMessage st a o).1.has_files_method = st.has_files_method) ∧
    (∀ (st : ServerState) (p : String) (cid : Option String) (o : ImgOrcOracle),
      (generateImage st p cid o).1.direct_api_working = st.direct_api_working ∧
      (generateImage st p cid o).1.has_direct_client = st.has_direct_client ∧
      (generateImage st p cid o).1.has_generate_image = st.has_generate_image ∧
      (generateImage st p cid o).1.has_files_method = st.has_files_method) ∧
    (∀ (st : ServerState) (o : ModelsOracle),
      (getModels st o).1.direct_api_working = st.direct_api_working ∧
      (getModels st o).1.has_direct_client = st.has_direct_client ∧
      (getModels st o).1.has_generate_image = st.has_generate_image ∧
      (getModels st o).1.has_files_method = st.has_files_method) ∧
    (∀ st : ServerState, (getPerformanceStats st).1 = st) := by
  refine ⟨?_, fun st a o => ⟨rfl, rfl, rfl, rfl⟩,
    fun st p cid o => ⟨rfl, rfl, rfl, rfl⟩,
    fun st o => ⟨rfl, rfl, rfl, rfl⟩, fun st => rfl⟩
  intro da co jwt auth
  cases da <;> cases co <;> cases h : jwtTruthy jwt <;> simp [initServer, h]

/-- C10: when `send_message` is called without a model name, the applied
configuration is the standard default (standard category, thinking
disabled, 2048 tokens) resolved from the absent name, while the effective
model sent is `qwen3-235b-a22b` — a name the table itself classifies as
advanced — so the default model is requested with the standard
configuration rather than its own table entry. -/
theorem default_model_config_mismatch :
    getModelConfig none = standardConfig ∧
    standardConfig.category = "standard" ∧
    standardConfig.thinking_enabled = false ∧
    standardConfig.max_tokens = 2048 ∧
    effectiveModel none = "qwen3-235b-a22b" ∧
    getModelConfig (some "qwen3-235b-a22b") = advancedConfig ∧
    advancedConfig.category = "advanced" ∧
    (∀ (st : ServerState) (a : ChatArgs) (o : ChatOracle),
      a.model_name = none → st.direct_api_working = true → st.has_direct_client = true →
      ((sendMessage st a o).2.2).head? =
        some (.directChat (chatVariant st a) a.prompt a.chat_id
          "qwen3-235b-a22b" standardConfig)) := by
  refine ⟨rfl, rfl, rfl, rfl, rfl, rfl, rfl, ?_⟩
  intro st a o hm hw hc
  cases hdp : (directChatPhase st o).2 <;>
    simp [sendMessage, hdp, hw, hc, hm, effectiveModel, getModelConfig, modelLower,
      containsSub, charsInfix, charsStartWith]

/-- Witness for C10: a concrete usable server and a call without model name;
the direct attempt is the first event, sent as `qwen3-235b-a22b` with the
standard configuration. -/
theorem default_model_config_mismatch_witness :
    ((sendMessage stUsableFresh argsHello chatOracleDirectFailZero).2.2).head? =
      some (.directChat .plain "hello" none "qwen3-235b-a22b" standardConfig) := by
  have h := default_model_config_mismatch.2.2.2.2.2.2.2
    stUsableFresh argsHello chatOracleDirectFailZero rfl rfl rfl
  exact h

/-- C6: with the direct client marked unusable, no direct collaborator
operation is ever invoked and each of the three operations goes straight to
(and only to) the browser path, with the original parameters. -/
theorem unusable_direct_never_invoked :
    ∀ st : ServerState, st.direct_api_working = false →
      (∀ (a : ChatArgs) (o : ChatOracle),
        (sendMessage st a o).2.2 =
          [.browserAsk a.prompt a.chat_id a.use_web_search a.file_paths
             a.agent_name a.model_name]) ∧
      (∀ (p : String) (cid : Option String) (o : ImgOrcOracle),
        (generateImage st p cid o).2.2 = [.browserImage p]) ∧
      (∀ o : ModelsOracle, (getModels st o).2.2 = [.browserModels]) := by
  intro st h
  refine ⟨?_, ?_, ?_⟩
  · intro a o
    simp [sendMessage, directChatPhase, h]
  · intro p cid o
    simp [generateImage, directImgPhase, h]
  · intro o
    simp [getModels, directModelsPhase, h]

/-- Witness for C6 at a concrete browser-only server: all three traces are
exactly one browser invocation. -/
theorem unusable_direct_never_invoked_witness :
    (sendMessage stBrowserOnly argsHello chatOracleBrowserOnly).2.2 =
      [.browserAsk "hello" none false none none none] ∧
    (generateImage stBrowserOnly "a cat" none imgOrcOracleNoUrl).2.2 = [.browserImage "a cat"] ∧
    (getModels stBrowserOnly modelsOracleBrowserOnly).2.2 = [.browserModels] := by
  have h := unusable_direct_never_invoked stBrowserOnly rfl
  exact ⟨h.1 argsHello chatOracleBrowserOnly, h.2.1 "a cat" none imgOrcOracleNoUrl,
    h.2.2 modelsOracleBrowserOnly⟩

/-- C1 (amended): with a usable direct client and a disqualifying direct
chat outcome (`success` falsy, or a raise), `send_message` invokes the
browser collaborator exactly once, passing the original request parameters
through unchanged; and provided the browser call returns a result and the
browser-path performance recording does not raise — that is, unless the
running direct-path average is zero while the recorded browser duration is
positive — the final result is the browser result unmodified.  When the
recording does raise, the `ZeroDivisionError` propagates instead of the
browser result (see the counterexample). -/
theorem direct_failure_browser_passthrough :
    ∀ (st : ServerState) (a : ChatArgs) (o : ChatOracle),
      st.direct_api_working = true → st.has_direct_client = true →
      directChatDisqualified o = true →
      (sendMessage st a o).2.2 =
        [.directChat (chatVariant st a) a.prompt a.chat_id (effectiveModel a.model_name)
           (getModelConfig a.model_name),
         .browserAsk a.prompt a.chat_id a.use_web_search a.file_paths
           a.agent_name a.model_name] ∧
      (∀ b : JVal, o.browserResult = .ok b →
        (recordPerformance st.stats o.browserDuration "browser").2 = false →
        (sendMessage st a o).2.1 = .ok b) := by
  intro st a o hw hc hd
  have hdp := directChatPhase_disqualified st o hd
  constructor
  · simp [sendMessage, hdp, hw, hc]
  · intro b hb hr
    simp [sendMessage, hdp, hw, hc, hb, hr]

/-- Counterexample to C1 as stated: a usable direct client whose chat
attempt returns `success:false`, fresh statistics, and a browser call that
returns a result after one second.  The single browser invocation does
happen, but the final outcome is the propagated `ZeroDivisionError` from
`_record_performance`, not the browser result. -/
theorem direct_failure_passthrough_cex :
    (sendMessage stUsableFresh argsHello chatOracleDirectFail).2.1
      = .error "division by zero" ∧
    ¬ ((sendMessage stUsableFresh argsHello chatOracleDirectFail).2.1
      = .ok browserOkDict) := by
  have h1 : (sendMessage stUsableFresh argsHello chatOracleDirectFail).2.1
      = .error "division by zero" := by
    simp [sendMessage, directChatPhase, stUsableFresh, chatOracleDirectFail,
      directFailDict, pyDictGet, jlookupL, truthy, record_browser_one_raises_fresh]
  refine ⟨h1, ?_⟩
  rw [h1]
  intro hcon
  exact Except.noConfusion hcon

/-- Witness for C1 (amended): at the concrete usable server, failing direct
attempt and zero-duration browser call, the trace is direct-then-browser
with the original parameters and the browser result is returned as is. -/
theorem direct_failure_browser_passthrough_witness :
    (sendMessage stUsableFresh argsHello chatOracleDirectFailZero).2.2 =
      [.directChat .plain "hello" none "qwen3-235b-a22b" standardConfig,
       .browserAsk "hello" none false none none none] ∧
    (sendMessage stUsableFresh argsHello chatOracleDirectFailZero).2.1 = .ok browserOkDict := by
  have h := direct_failure_browser_passthrough stUsableFresh argsHello
    chatOracleDirectFailZero rfl rfl rfl
  refine ⟨?_, h.2 browserOkDict rfl record_browser_zero_fresh⟩
  rw [h.1]
  rfl

/-- C3 refuted (code bug): exceptions do escape the orchestrator.  In
browser-only mode with fresh statistics, the very first `send_message` and
the very first `get_models` whose browser call takes a positive time reach
`_record_performance`, whose speed-improvement division is guarded by the
browser average instead of the direct average it divides by; the resulting
`ZeroDivisionError` propagates to the caller because the browser fallback of
these operations is wrapped only in `try/finally`. -/
theorem orchestrator_exception_escape :
    (sendMessage stBrowserOnly argsHello chatOracleBrowserOnly).2.1
      = .error "division by zero" ∧
    (getModels stBrowserOnly modelsOracleBrowserOnly).2.1
      = .error "division by zero" := by
  constructor
  · simp [sendMessage, directChatPhase, stBrowserOnly, chatOracleBrowserOnly,
      record_browser_one_raises_fresh]
  · simp [getModels, directModelsPhase, stBrowserOnly, modelsOracleBrowserOnly,
      record_browser_one_raises_fresh]

/-- C4: a direct image-generation result whose `success` flag is truthy but
whose `image_url` is falsy is treated as a failure: the orchestrator falls
back to the browser path (single browser invocation after the direct one)
and returns the browser outcome, never the URL-less direct result as a
success.  In particular the synthetic body whose only content is plain text
in `choices[0].message.content` yields no extractable URL in the direct
client, whose `generate_image` therefore reports failure, so the
orchestrator falls back. -/
theorem image_no_url_fallback :
    (∀ (st : ServerState) (p : String) (cid : Option String) (o : ImgOrcOracle)
        (r sv uv : JVal),
      st.direct_api_working = true → st.has_direct_client = true →
      st.has_generate_image = true →
      o.directResult = .ok r →
      pyDictGet r "success" .jnull = .ok sv → truthy sv = true →
      pyDictGet r "image_url" .jnull = .ok uv → truthy uv = false →
      (generateImage st p cid o).2.2 = [.directImage p cid, .browserImage p] ∧
      (∀ b : JVal, o.browserResult = .ok b →
        (recordPerformance st.stats o.browserDuration "browser").2 = false →
        (generateImage st p cid o).2.1 = .ok b)) ∧
    extractImageUrlFound syntheticNoUrlBody = .ok false ∧
    (clientGenerateImage (some "chat-1") imgOracleNoUrl).1
      = { success := false, image_url_found := false } := by
  refine ⟨?_, rfl, rfl⟩
  intro st p cid o r sv uv hw hc hg ho hsv htv huv hut
  have hchk : directImgCheck r = .ok false := by
    simp [directImgCheck, hsv, htv, huv, hut]
  have hdp := directImgPhase_noUrl st o r ho hchk
  constructor
  · simp [generateImage, hdp, hw, hc, hg]
  · intro b hb hr
    simp [generateImage, hdp, hw, hc, hg, hb, hr]

/-- Witness for C4 at a concrete input: usable server, direct result with
`success:true` and `image_url:null`, instant browser success. -/
theorem image_no_url_fallback_witness :
    (generateImage stUsableFresh "a cat" (some "c1") imgOrcOracleNoUrl).2.2 =
      [.directImage "a cat" (some "c1"), .browserImage "a cat"] ∧
    (generateImage stUsableFresh "a cat" (some "c1") imgOrcOracleNoUrl).2.1
      = .ok browserImgOkDict := by
  have h := image_no_url_fallback.1 stUsableFresh "a cat" (some "c1") imgOrcOracleNoUrl
    directImgNoUrlDict (.jbool true) .jnull rfl rfl rfl rfl rfl rfl rfl rfl
  exact ⟨h.1, h.2 browserImgOkDict rfl record_browser_zero_fresh⟩

/-- C7 (amended): at the orchestrator level each path is attempted at most
once per logical call — no retry loop, a single direct failure falls back
once to the browser — but inside the direct client an image-generation
attempt that finds no image URL issues exactly one additional alternative
chat-completions request (two direct POSTs in total, never more) before
reporting failure and letting the orchestrator fall back. -/
theorem paths_attempted_once :
    (∀ (st : ServerState) (a : ChatArgs) (o : ChatOracle),
      directEventCount (sendMessage st a o).2.2 ≤ 1 ∧
      browserEventCount (sendMessage st a o).2.2 ≤ 1) ∧
    (∀ (st : ServerState) (p : String) (cid : Option String) (o : ImgOrcOracle),
      directEventCount (generateImage st p cid o).2.2 ≤ 1 ∧
      browserEventCount (generateImage st p cid o).2.2 ≤ 1) ∧
    (∀ (st : ServerState) (o : ModelsOracle),
      directEventCount (getModels st o).2.2 ≤ 1 ∧
      browserEventCount (getModels st o).2.2 ≤ 1) ∧
    (∀ (cid : Option String) (o : ImgOracle), (clientGenerateImage cid o).2 ≤ 2) ∧
    (∀ (cid : String) (o : ImgOracle) (body : JVal),
      o.resp1 = .ok body → extractImageUrlFound body = .ok false →
      (clientGenerateImage (some cid) o).2 = 2) := by
  refine ⟨?_, ?_, ?_, ?_, ?_⟩
  · intro st a o
    cases hg : st.direct_api_working && st.has_direct_client <;>
      cases hdp : (directChatPhase st o).2 <;>
        simp [sendMessage, directEventCount, browserEventCount, hg, hdp,
          Event.isDirectPath, Event.isBrowserPath]
  · intro st p cid o
    cases hg : st.direct_api_working && st.has_direct_client && st.has_generate_image <;>
      cases hdp : (directImgPhase st o).2 <;>
        simp [generateImage, directEventCount, browserEventCount, hg, hdp,
          Event.isDirectPath, Event.isBrowserPath]
  · intro st o
    cases hg : st.direct_api_working && st.has_direct_client <;>
      cases hdp : (directModelsPhase st o).2 <;>
        simp [getModels, directEventCount, browserEventCount, hg, hdp,
          Event.isDirectPath, Event.isBrowserPath]
  · intro cid o
    unfold clientGenerateImage
    repeat' split
    all_goals decide
  · intro cid o body h1 h2
    simp only [clientGenerateImage, chatOkFor, h1, h2]
    rcases hr2 : o.resp2 with e | sb
    · simp
    · obtain ⟨status, body2⟩ := sb
      by_cases hst : status = 200
      · subst hst
        rcases hx : extractImageUrlFromResponseFound body2 with e2 | fb
        · simp [hx]
        · cases fb <;> simp [hx]
      · simp [hst]

/-- Counterexample to C7 as stated: with a decodable primary response whose
only content is URL-free plain text, the direct client does issue a second
chat-completions request (the alternative method) before reporting failure —
two direct POSTs, not one. -/
theorem single_attempt_cex :
    (clientGenerateImage (some "chat-1") imgOracleNoUrl).2 = 2 ∧
    ¬ ((clientGenerateImage (some "chat-1") imgOracleNoUrl).2 ≤ 1) := by
  refine ⟨rfl, ?_⟩
  intro h
  rw [show (clientGenerateImage (some "chat-1") imgOracleNoUrl).2 = 2 from rfl] at h
  omega

/-- Witness for C7 (amended) at concrete inputs: the browser-only chat trace
has at most one browser event, and the concrete no-URL image call issues
exactly two direct requests. -/
theorem paths_attempted_once_witness :
    browserEventCount (sendMessage stBrowserOnly argsHello chatOracleBrowserOnly).2.2 ≤ 1 ∧
    (clientGenerateImage (some "chat-2") imgOracleNoUrl).2 = 2 :=
  ⟨(paths_attempted_once.1 stBrowserOnly argsHello chatOracleBrowserOnly).2,
   paths_attempted_once.2.2.2.2 "chat-2" imgOracleNoUrl syntheticNoUrlBody rfl rfl⟩
